import Mathlib

/-!
Verification of the secure resource-access layer and bounded conversation
history of the agentic-framework repository.

The definitions below are shallow embeddings of the Python source:

* `src/tools/filesystem_tools.py` — `FileSystemSecurity.validate_path`,
  the module-level `validate_path`, `FileSystemSecurity.log_operation`,
  the `safe_wrapper` closure of `create_safe_file_tool`, and
  `FileSystemMetrics` (`record_operation`, `add_error`, `get_metrics`);
* `src/agents/bedrock_agent.py` — `LimitedChatMessageHistory`
  (`__init__`, `add_message`, `clear`, the `messages` property).

Python strings are Lean `String`s (manipulated through their `List Char`
data so that everything evaluates by `decide`/`rfl`); `os.path` helpers
(`abspath`, `normpath`, `join`, `splitext`) are translated from CPython's
`posixpath`.  The ambient working directory is passed explicitly: the
`Option String` argument models `os.getcwd()`, with `none` standing for
the one way the pure-string computation can raise (`getcwd` failing on a
relative path), which the source's `try/except` blocks catch.
-/

/-- Boolean test that `pre` is a leading segment of `l`
(models Python `str.startswith`). -/
def hasPrefixL : List Char → List Char → Bool
  | _, [] => true
  | [], _ :: _ => false
  | c :: cs, p :: ps => c == p && hasPrefixL cs ps

/-- Boolean substring test: `pat` occurs contiguously in `text`
(models Python's `pat in text`). -/
def hasInfixL : List Char → List Char → Bool
  | [], pat => hasPrefixL [] pat
  | c :: rest, pat => hasPrefixL (c :: rest) pat || hasInfixL rest pat

/-- Split a character list on `'/'` separators, keeping empty components
(models Python `str.split('/')`). -/
def splitSlash : List Char → List (List Char)
  | [] => [[]]
  | c :: rest =>
    match splitSlash rest with
    | [] => [[]]
    | comp :: comps => if c == '/' then [] :: comp :: comps else (c :: comp) :: comps

/-- CPython `posixpath.normpath`, translated clause by clause: collapse
`.` and empty components, resolve `..` against preceding components,
preserve one or two (but not three or more) leading slashes. -/
def normpathL (path : List Char) : List Char :=
  if path.isEmpty then ['.']
  else
    let initialSlashes : Nat :=
      if hasPrefixL path ['/'] then
        if hasPrefixL path ['/', '/'] && !(hasPrefixL path ['/', '/', '/']) then 2 else 1
      else 0
    let comps := splitSlash path
    let newComps := comps.foldl (fun acc comp =>
      if comp.isEmpty || comp == ['.'] then acc
      else if !(comp == ['.', '.']) || (initialSlashes == 0 && acc.isEmpty)
          || (!acc.isEmpty && acc.getLast? == some ['.', '.']) then
        acc ++ [comp]
      else if !acc.isEmpty then acc.dropLast
      else acc) []
    let joined := List.intercalate ['/'] newComps
    let res := List.replicate initialSlashes '/' ++ joined
    if res.isEmpty then ['.'] else res

/-- `posixpath.normpath` on Lean strings. -/
def normpath (s : String) : String := String.mk (normpathL s.data)

/-- Two-argument `posixpath.join`: an absolute second component replaces
the first; otherwise insert a `'/'` unless one is already present. -/
def pyJoin (a b : String) : String :=
  if hasPrefixL b.data ['/'] then b
  else if a.data.isEmpty || (a.data.getLast? == some '/') then String.mk (a.data ++ b.data)
  else String.mk (a.data ++ '/' :: b.data)

/-- `posixpath.abspath`: normalize an absolute path directly, resolve a
relative path against the working directory first.  `cwd? = none` models
`os.getcwd()` raising, the only failure the surrounding `try` can see on
string inputs; it propagates as an `Except.error`. -/
def abspathE (cwd? : Option String) (path : String) : Except String String :=
  if hasPrefixL path.data ['/'] then Except.ok (normpath path)
  else
    match cwd? with
    | some cwd => Except.ok (normpath (pyJoin cwd path))
    | none => Except.error "getcwd failed"

/-- Index of the last occurrence of `c` in `l`, `-1` when absent
(models Python `str.rfind`). -/
def rfindIdx (l : List Char) (c : Char) : Int :=
  match List.findIdx? (fun x => x == c) l.reverse with
  | some i => (l.length : Int) - 1 - (i : Int)
  | none => -1

/-- CPython `posixpath.splitext`: split off the extension at the last
dot after the last slash, unless the basename consists solely of leading
dots up to that position. -/
def splitextL (p : List Char) : List Char × List Char :=
  let sepIndex := rfindIdx p '/'
  let dotIndex := rfindIdx p '.'
  if sepIndex < dotIndex then
    let start := (sepIndex + 1).toNat
    let stop := dotIndex.toNat
    if ((p.drop start).take (stop - start)).any (fun ch => !(ch == '.')) then
      (p.take stop, p.drop stop)
    else (p, [])
  else (p, [])

/-- `os.path.splitext(path)[1].lower()` as used by the extension check. -/
def fileExtOf (path : String) : String :=
  String.mk ((splitextL path.data).2.map Char.toLower)

/-!  Data model: the `security` sub-dictionary of `FILESYSTEM_CONFIG`
(`src/config/settings.py`) and the enclosing filesystem configuration.
Each field mirrors one key; the `.get` defaults used at the access sites
are baked into the reading code below, exactly as in the source. -/

/-- The `config['security']` dictionary consulted by
`FileSystemSecurity`.  `allowed_extensions = none` models the key being
`None`/absent; Python's truthiness makes `some []` behave like `none`. -/
structure SecurityConfig where
  validate_paths : Bool
  restricted_patterns : List String
  allowed_extensions : Option (List String)
  monitor_operations : Bool
  log_all_operations : Bool
deriving DecidableEq

/-- The parts of `FILESYSTEM_CONFIG` read by the code under study:
`max_file_size` (`none` models `None`, i.e. no limit configured) and the
`security` sub-dictionary. -/
structure FilesystemConfig where
  max_file_size : Option Nat
  security : SecurityConfig

/-- One entry of `FileSystemMetrics.errors`: `{'timestamp': datetime.now(),
'error': str(error)}`, with the wall-clock timestamp passed explicitly. -/
structure ErrorEntry where
  timestamp : Nat
  error : String
deriving DecidableEq

/-- `FileSystemMetrics.__init__`: the per-kind operation counters (a dict
modelled as an insertion-ordered association list), the error log list,
and the byte counter. -/
structure FileSystemMetrics where
  operations : List (String × Nat)
  errors : List ErrorEntry
  total_bytes_processed : Nat
deriving DecidableEq

/-- The freshly constructed `FileSystemMetrics()` state. -/
def FileSystemMetrics.new : FileSystemMetrics :=
  { operations := [("read", 0), ("write", 0), ("list", 0), ("search", 0)]
    errors := []
    total_bytes_processed := 0 }

/-- Python `dict.get(k, dflt)` on the association-list model: value of
the first matching key, else the default. -/
def dictGet : List (String × Nat) → String → Nat → Nat
  | [], _, dflt => dflt
  | p :: rest, k, dflt => if p.1 == k then p.2 else dictGet rest k dflt

/-- Python `d[k] = v` on the association-list model: overwrite the first
matching key, else append a new entry (dict insertion order). -/
def dictSet : List (String × Nat) → String → Nat → List (String × Nat)
  | [], k, v => [(k, v)]
  | p :: rest, k, v => if p.1 == k then (k, v) :: rest else p :: dictSet rest k v

/-- Sum of all operation counters, `sum(counts.values())` in the spec's
ledger-accounting property. -/
def opsSum (d : List (String × Nat)) : Nat := (d.map Prod.snd).sum

/-- `FileSystemMetrics.record_operation`: bump the counter for
`operation` (creating the key if absent, as `dict.get(op, 0) + 1` does)
and add `bytes_processed` to the byte total. -/
def FileSystemMetrics.record_operation (m : FileSystemMetrics) (operation : String)
    (bytes_processed : Nat) : FileSystemMetrics :=
  { m with
    operations := dictSet m.operations operation (dictGet m.operations operation 0 + 1)
    total_bytes_processed := m.total_bytes_processed + bytes_processed }

/-- `FileSystemMetrics.add_error`: unconditionally append one entry to
the error list. -/
def FileSystemMetrics.add_error (m : FileSystemMetrics) (timestamp : Nat)
    (error : String) : FileSystemMetrics :=
  { m with errors := m.errors ++ [{ timestamp := timestamp, error := error }] }

/-- The dictionary returned by `FileSystemMetrics.get_metrics`. -/
structure MetricsSnapshot where
  operations : List (String × Nat)
  total_bytes : Nat
  error_count : Nat
deriving DecidableEq

/-- `FileSystemMetrics.get_metrics`: build the snapshot from the three
fields.  The method only reads `self`, so its state-passing embedding
returns the receiver unchanged alongside the snapshot. -/
def FileSystemMetrics.get_metrics (m : FileSystemMetrics) :
    MetricsSnapshot × FileSystemMetrics :=
  ({ operations := m.operations
     total_bytes := m.total_bytes_processed
     error_count := m.errors.length }, m)

/-!  Path validation (`src/tools/filesystem_tools.py`). -/

/-- Body of the `try` block of `FileSystemSecurity.validate_path`
(lines 166-189): absolutize both paths, then the `startswith` containment
check, the restricted-pattern substring check on the original path, and
the extension allow-list check (skipped when the configured list is
falsy). -/
def validate_path_body (cwd? : Option String) (sec : SecurityConfig)
    (path root_dir : String) : Except String Bool := do
  let abs_path ← abspathE cwd? path
  let abs_root ← abspathE cwd? root_dir
  if !(hasPrefixL abs_path.data abs_root.data) then
    return false
  else if sec.restricted_patterns.any (fun pat => hasInfixL path.data pat.data) then
    return false
  else
    match sec.allowed_extensions with
    | none => return true
    | some exts =>
      if exts.isEmpty then return true
      else if exts.contains (fileExtOf path) then return true
      else return false

/-- `FileSystemSecurity.validate_path`: `True` immediately when
`validate_paths` is off (the `.get('validate_paths', True)` guard on
line 163), otherwise run the body with the `except` handler mapping any
raised error to `False`.  The method reads only `self.security_config`,
so it is embedded as a function of that configuration. -/
def FileSystemSecurity.validate_path (sec : SecurityConfig) (cwd? : Option String)
    (path root_dir : String) : Bool :=
  if !sec.validate_paths then true
  else
    match validate_path_body cwd? sec path root_dir with
    | Except.ok b => b
    | Except.error _ => false

/-- The hardcoded `suspicious_patterns` list of the module-level
`validate_path` (line 246); Python's `'\$'` is the two characters
backslash, dollar. -/
def suspicious_patterns : List String := ["..", "~", "\\$", "|", ";", "&"]

/-- Body of the `try` block of the module-level `validate_path`
(lines 235-251): containment check then suspicious-pattern check; no
flag, no extension check. -/
def validate_path_std_body (cwd? : Option String) (path root_dir : String) :
    Except String Bool := do
  let abs_path ← abspathE cwd? path
  let abs_root ← abspathE cwd? root_dir
  if !(hasPrefixL abs_path.data abs_root.data) then
    return false
  else if suspicious_patterns.any (fun pat => hasInfixL path.data pat.data) then
    return false
  else
    return true

/-- Module-level `validate_path` (lines 215-255): the body with its
`except` handler returning `False`. -/
def validate_path (cwd? : Option String) (path root_dir : String) : Bool :=
  match validate_path_std_body cwd? path root_dir with
  | Except.ok b => b
  | Except.error _ => false

/-!  The security manager and the sandbox wrapper. -/

/-- `FileSystemSecurity.__init__`: the security configuration plus the
optional metrics instance (`FileSystemMetrics()` when
`monitor_operations` is set, else `None`). -/
structure FileSystemSecurity where
  security_config : SecurityConfig
  metrics : Option FileSystemMetrics
deriving DecidableEq

/-- `FileSystemSecurity(config)`: metrics are created exactly when
`monitor_operations` is configured. -/
def FileSystemSecurity.fromConfig (cfg : FilesystemConfig) : FileSystemSecurity :=
  { security_config := cfg.security
    metrics := if cfg.security.monitor_operations then some FileSystemMetrics.new else none }

/-- `FileSystemSecurity.log_operation`: update the metrics when present
(`record_operation` is called with the operation name only, so zero
bytes).  The `log_all_operations` branch only emits a log line and has
no state effect. -/
def FileSystemSecurity.log_operation (sm : FileSystemSecurity) (operation : String) :
    FileSystemSecurity :=
  match sm.metrics with
  | some m => { sm with metrics := some (m.record_operation operation 0) }
  | none => sm

/-- The four tool classes dispatched by `create_safe_file_tool`. -/
inductive ToolKind where
  | read
  | write
  | list
  | search
deriving DecidableEq

/-- `tool_class.__name__.replace('Tool', '').lower()`: the operation
name logged by `safe_wrapper` (note it is `"readfile"`, not the
`"read"` key pre-seeded in the metrics dict). -/
def opName : ToolKind → String
  | ToolKind.read => "readfile"
  | ToolKind.write => "writefile"
  | ToolKind.list => "listdirectory"
  | ToolKind.search => "filesearch"

/-- The chain of checks `safe_wrapper` runs before logging and invoking
the wrapped tool, each modelling one `raise`: missing/empty path
(`if not file_path`), path validation (`SecurityError`), and — for
`ReadFileTool` only — the on-disk size check against
`FILESYSTEM_CONFIG['max_file_size']` (`ResourceError`; comparing with a
`None` limit raises a `TypeError` in Python, modelled by the error
branch on `none`).  `fsE`/`fsS` are `os.path.exists`/`os.path.getsize`. -/
def safe_wrapper_precheck (cfg : FilesystemConfig) (cwd? : Option String)
    (fsE : String → Bool) (fsS : String → Nat) (root_dir : String)
    (kind : ToolKind) (sec : SecurityConfig) (fp? : Option String) :
    Except String String :=
  match fp? with
  | none => Except.error "No file path provided"
  | some fp =>
    if fp == "" then Except.error "No file path provided"
    else if !(FileSystemSecurity.validate_path sec cwd? fp root_dir) then
      Except.error ("Invalid or unsafe path: " ++ fp)
    else
      match kind with
      | ToolKind.read =>
        let full_path := pyJoin root_dir fp
        if fsE full_path then
          match cfg.max_file_size with
          | none => Except.error "unsupported comparison with None"
          | some lim =>
            if fsS full_path > lim then Except.error ("File exceeds size limit: " ++ fp)
            else Except.ok fp
        else Except.ok fp
      | _ => Except.ok fp

/-- The `safe_wrapper` closure of `create_safe_file_tool`
(lines 297-326): run the prechecks; on any raise, the `except` handler
returns the `"Error: ..."` string with the security state untouched.
Otherwise `log_operation` runs (mutating the ledger), then the wrapped
tool; an exception from the wrapped call is also caught and rendered as
an `"Error: ..."` string, after the ledger update.  `payload` stands for
the remaining `*args`/`**kwargs`, which the wrapper forwards without
inspecting; `underlying` is the outcome of `original_call`. -/
def safe_wrapper (cfg : FilesystemConfig) (cwd? : Option String)
    (fsE : String → Bool) (fsS : String → Nat) (root_dir : String)
    (kind : ToolKind) (sm : FileSystemSecurity) (fp? : Option String)
    (_payload : String) (underlying : Except String String) :
    String × FileSystemSecurity :=
  match safe_wrapper_precheck cfg cwd? fsE fsS root_dir kind sm.security_config fp? with
  | Except.error e => ("Error: " ++ e, sm)
  | Except.ok _ =>
    let sm' := sm.log_operation (opName kind)
    match underlying with
    | Except.ok r => (r, sm')
    | Except.error e => ("Error: " ++ e, sm')

/-- `true` exactly when the prechecks of `safe_wrapper` all pass, i.e.
when the call reaches `log_operation`. -/
def precheckPasses (cfg : FilesystemConfig) (cwd? : Option String)
    (fsE : String → Bool) (fsS : String → Nat) (root_dir : String)
    (kind : ToolKind) (sec : SecurityConfig) (fp? : Option String) : Bool :=
  match safe_wrapper_precheck cfg cwd? fsE fsS root_dir kind sec fp? with
  | Except.ok _ => true
  | Except.error _ => false

/-- One sandboxed tool invocation: the tool class, the path argument,
the forwarded payload, and the wrapped tool's outcome. -/
structure CallSpec where
  kind : ToolKind
  file_path : Option String
  payload : String
  underlying : Except String String

/-- Run a sequence of `safe_wrapper` invocations against one security
manager, threading its state. -/
def runCalls (cfg : FilesystemConfig) (cwd? : Option String)
    (fsE : String → Bool) (fsS : String → Nat) (root_dir : String) :
    FileSystemSecurity → List CallSpec → FileSystemSecurity
  | sm, [] => sm
  | sm, c :: rest =>
    runCalls cfg cwd? fsE fsS root_dir
      (safe_wrapper cfg cwd? fsE fsS root_dir c.kind sm c.file_path c.payload c.underlying).2
      rest

/-- Sum of the per-kind operation counters of a security manager's
ledger (0 when monitoring is off). -/
def ledgerOpsSum (sm : FileSystemSecurity) : Nat :=
  match sm.metrics with
  | some m => opsSum m.operations
  | none => 0

/-!  `LimitedChatMessageHistory` (`src/agents/bedrock_agent.py`),
the ring-retention history selected by `memory_type = 'limited'`.
The element type is a parameter, as the Python class stores arbitrary
`BaseMessage` objects. -/

/-- Fields of `LimitedChatMessageHistory`: the stored messages and the
capacity (`max_messages`, default 100 in the source). -/
structure LimitedChatMessageHistory (α : Type) where
  _messages : List α
  _max_messages : Nat
deriving DecidableEq

/-- `LimitedChatMessageHistory(max_messages)`: start empty. -/
def LimitedChatMessageHistory.new {α : Type} (max_messages : Nat) :
    LimitedChatMessageHistory α :=
  { _messages := [], _max_messages := max_messages }

/-- Python `lst[-n:]`: the last `n` elements for `n ≥ 1`; for `n = 0`
the slice `lst[-0:]` is `lst[0:]`, i.e. the whole list. -/
def pySliceLast {α : Type} (l : List α) (n : Nat) : List α :=
  if n = 0 then l else l.drop (l.length - n)

/-- `LimitedChatMessageHistory.add_message`: append, then truncate with
`self._messages[-self._max_messages:]` whenever the length exceeds the
capacity. -/
def LimitedChatMessageHistory.add_message {α : Type}
    (h : LimitedChatMessageHistory α) (m : α) : LimitedChatMessageHistory α :=
  let appended := h._messages ++ [m]
  if appended.length > h._max_messages then
    { h with _messages := pySliceLast appended h._max_messages }
  else
    { h with _messages := appended }

/-- The `messages` property: the stored list, insertion order. -/
def LimitedChatMessageHistory.messages {α : Type}
    (h : LimitedChatMessageHistory α) : List α :=
  h._messages

/-- `LimitedChatMessageHistory.clear`. -/
def LimitedChatMessageHistory.clear {α : Type}
    (h : LimitedChatMessageHistory α) : LimitedChatMessageHistory α :=
  { h with _messages := [] }

/-!  Concrete configurations used by the witnesses and counterexamples.
`secMonitored` mirrors the `testing` environment of
`src/config/settings.py` (security on, path validation on, no
restricted patterns or extension list configured) with
`monitor_operations` switched on so that the ledger exists. -/

/-- Validation enabled, no pattern or extension restrictions,
monitoring on. -/
def secMonitored : SecurityConfig :=
  { validate_paths := true
    restricted_patterns := []
    allowed_extensions := none
    monitor_operations := true
    log_all_operations := false }

/-- Same, but with `validate_paths` off. -/
def secDisabled : SecurityConfig :=
  { secMonitored with validate_paths := false }

/-- No `max_file_size` configured (the development default `None`). -/
def cfgNoLimit : FilesystemConfig :=
  { max_file_size := none, security := secMonitored }

/-- `max_file_size = 1024`. -/
def cfgLimit1024 : FilesystemConfig :=
  { max_file_size := some 1024, security := secMonitored }

/-- A monitored security manager with a fresh ledger. -/
def smMonitored : FileSystemSecurity :=
  { security_config := secMonitored, metrics := some FileSystemMetrics.new }

/-- A 2048-character write payload. -/
def bigPayload : String := String.mk (List.replicate 2048 'a')

/-- `n` successive `add_error` calls. -/
def addErrorsN (m : FileSystemMetrics) : Nat → FileSystemMetrics
  | 0 => m
  | n + 1 => (addErrorsN m n).add_error 0 "io failure"

/-!  Helper lemmas. -/

/-- Bumping one key of the counters dictionary raises the value sum by
exactly one. -/
theorem opsSum_dictSet_incr (d : List (String × Nat)) (k : String) :
    opsSum (dictSet d k (dictGet d k 0 + 1)) = opsSum d + 1 := by
  induction d with
  | nil => simp [dictGet, dictSet, opsSum]
  | cons p rest ih =>
    by_cases h : (p.1 == k) = true
    · simp [dictGet, dictSet, h, opsSum]
      omega
    · simp only [Bool.not_eq_true] at h
      simp [dictGet, dictSet, h, opsSum] at ih ⊢
      omega

theorem log_operation_sec (sm : FileSystemSecurity) (op : String) :
    (sm.log_operation op).security_config = sm.security_config := by
  unfold FileSystemSecurity.log_operation
  cases sm.metrics <;> rfl

theorem log_operation_isSome (sm : FileSystemSecurity) (op : String) :
    (sm.log_operation op).metrics.isSome = sm.metrics.isSome := by
  unfold FileSystemSecurity.log_operation
  cases hm : sm.metrics with
  | none => simp [hm]
  | some m => simp [hm]

theorem log_operation_sum (sm : FileSystemSecurity) (op : String)
    (h : sm.metrics.isSome = true) :
    ledgerOpsSum (sm.log_operation op) = ledgerOpsSum sm + 1 := by
  unfold FileSystemSecurity.log_operation ledgerOpsSum
  cases hm : sm.metrics with
  | none => rw [hm] at h; simp at h
  | some m =>
    simp [FileSystemMetrics.record_operation, opsSum_dictSet_incr]

/-- The state returned by `safe_wrapper`: the ledger is updated exactly
when the prechecks pass. -/
theorem safe_wrapper_snd (cfg : FilesystemConfig) (cwd? : Option String)
    (fsE : String → Bool) (fsS : String → Nat) (root_dir : String)
    (kind : ToolKind) (sm : FileSystemSecurity) (fp? : Option String)
    (payload : String) (u : Except String String) :
    (safe_wrapper cfg cwd? fsE fsS root_dir kind sm fp? payload u).2
      = if precheckPasses cfg cwd? fsE fsS root_dir kind sm.security_config fp? then
          sm.log_operation (opName kind)
        else sm := by
  unfold safe_wrapper precheckPasses
  cases h : safe_wrapper_precheck cfg cwd? fsE fsS root_dir kind sm.security_config fp? with
  | error e => simp
  | ok fp => cases u <;> simp

theorem errors_addErrorsN (m : FileSystemMetrics) (n : Nat) :
    (addErrorsN m n).errors.length = m.errors.length + n := by
  induction n with
  | zero => rfl
  | succ k ih =>
    simp [addErrorsN, FileSystemMetrics.add_error, ih]
    omega

theorem add_message_max {α : Type} (h : LimitedChatMessageHistory α) (m : α) :
    (h.add_message m)._max_messages = h._max_messages := by
  simp only [LimitedChatMessageHistory.add_message]
  split <;> rfl

theorem fold_add_max {α : Type} (msgs : List α) (h : LimitedChatMessageHistory α) :
    (msgs.foldl LimitedChatMessageHistory.add_message h)._max_messages
      = h._max_messages := by
  induction msgs generalizing h with
  | nil => rfl
  | cons m rest ih => rw [List.foldl_cons, ih, add_message_max]

theorem add_message_messages {α : Type} (h : LimitedChatMessageHistory α) (m : α) :
    (h.add_message m)._messages =
      if (h._messages ++ [m]).length > h._max_messages then
        pySliceLast (h._messages ++ [m]) h._max_messages
      else h._messages ++ [m] := by
  simp only [LimitedChatMessageHistory.add_message]
  split <;> rfl

/-- The content invariant of the ring history: after any sequence of
appends onto a fresh history of capacity `N ≥ 1`, the stored list is the
last `min (length, N)` appended elements, in order. -/
theorem ring_fold_messages {α : Type} (N : Nat) (hN : 1 ≤ N) (msgs : List α) :
    (msgs.foldl LimitedChatMessageHistory.add_message
      (LimitedChatMessageHistory.new N))._messages
      = msgs.drop (msgs.length - N) := by
  induction msgs using List.reverseRecOn with
  | nil => simp [LimitedChatMessageHistory.new]
  | append_singleton l m ih =>
    rw [List.foldl_append, List.foldl_cons, List.foldl_nil]
    have hmax :
        (l.foldl LimitedChatMessageHistory.add_message
          (LimitedChatMessageHistory.new N))._max_messages = N := by
      rw [fold_add_max]; rfl
    rw [add_message_messages, hmax, ih]
    rcases Nat.lt_or_ge l.length N with hc | hc
    · have h0 : l.length - N = 0 := Nat.sub_eq_zero_of_le (Nat.le_of_lt hc)
      rw [h0, List.drop_zero]
      have hcond : ¬ ((l ++ [m]).length > N) := by
        simp only [List.length_append, List.length_singleton]; omega
      rw [if_neg hcond]
      have h1 : (l ++ [m]).length - N = 0 := by
        simp only [List.length_append, List.length_singleton]; omega
      rw [h1, List.drop_zero]
    · have hlen : (l.drop (l.length - N)).length = N := by
        rw [List.length_drop]; omega
      have hcond : (l.drop (l.length - N) ++ [m]).length > N := by
        simp only [List.length_append, List.length_singleton, hlen]; omega
      rw [if_pos hcond]
      unfold pySliceLast
      have hNne : ¬ (N = 0) := by omega
      rw [if_neg hNne]
      have hlen2 : (l.drop (l.length - N) ++ [m]).length - N = 1 := by
        simp only [List.length_append, List.length_singleton, hlen]; omega
      rw [hlen2]
      have hdrop1 : (l.drop (l.length - N) ++ [m]).drop 1
          = (l.drop (l.length - N)).drop 1 ++ [m] :=
        List.drop_append_of_le_length (by rw [hlen]; exact hN)
      rw [hdrop1, List.drop_drop]
      have hR : (l ++ [m]).length - N = (l.length - N) + 1 := by
        simp only [List.length_append, List.length_singleton]; omega
      rw [hR]
      have hle : (l.length - N) + 1 ≤ l.length := by omega
      rw [List.drop_append_of_le_length hle]

/-- With capacity 0, `add_message` never truncates: the Python slice
`lst[-0:]` is the whole list, so every append is retained. -/
theorem fold_add_zero {α : Type} (msgs : List α) (h : LimitedChatMessageHistory α)
    (h0 : h._max_messages = 0) :
    (msgs.foldl LimitedChatMessageHistory.add_message h)._messages
      = h._messages ++ msgs := by
  induction msgs generalizing h with
  | nil => simp
  | cons m rest ih =>
    rw [List.foldl_cons]
    rw [ih (h.add_message m) (by rw [add_message_max, h0])]
    have hstep : (h.add_message m)._messages = h._messages ++ [m] := by
      rw [add_message_messages, h0]
      simp [pySliceLast, List.length_append]
    rw [hstep]
    simp

/-!  Claim theorems. -/

/-- Claim C1 (code bug): the containment test of both validation
functions is a naive `startswith` on the absolutized paths, with no
separator termination, so the sibling path `/root-evil` — which is
neither equal to nor a descendant of the root `/root` — passes
validation even with `validate_paths` enabled (no restricted pattern
matches it and no extension list is configured).  The claim, and the
code's own docstring ("within the allowed root directory"), say it must
be denied. -/
theorem claim1_sibling_path_allowed :
    validate_path (some "/") "/root-evil" "/root" = true
    ∧ FileSystemSecurity.validate_path secMonitored (some "/") "/root-evil" "/root" = true := by
  decide

/-- Claim C4 (confirmed): after `k` appends onto a fresh ring history of
capacity `N ≥ 1`, exactly `min k N` turns are stored, and they are the
last `min k N` appended turns in insertion order (the last `min k N`
elements of `msgs` are `msgs.drop (msgs.length - N)`). -/
theorem claim4_ring_roundtrip (α : Type) (N : Nat) (hN : 1 ≤ N) (msgs : List α) :
    ((msgs.foldl LimitedChatMessageHistory.add_message
        (LimitedChatMessageHistory.new N)).messages.length = min msgs.length N)
    ∧ ((msgs.foldl LimitedChatMessageHistory.add_message
        (LimitedChatMessageHistory.new N)).messages = msgs.drop (msgs.length - N)) := by
  have h := ring_fold_messages N hN msgs
  constructor
  · simp only [LimitedChatMessageHistory.messages]
    rw [h, List.length_drop]
    omega
  · simp only [LimitedChatMessageHistory.messages]
    rw [h]

/-- Witness for C4: capacity 3, appends 1..5, history reads `[3, 4, 5]`
(the spec's Scenario B). -/
theorem claim4_witness :
    1 ≤ 3
    ∧ (([1, 2, 3, 4, 5] : List Nat).foldl LimitedChatMessageHistory.add_message
        (LimitedChatMessageHistory.new 3)).messages = [3, 4, 5] := by
  constructor
  · decide
  · rw [(claim4_ring_roundtrip Nat 3 (by decide) [1, 2, 3, 4, 5]).2]
    decide

/-- Claim C5 (confirmed): with `validate_paths` disabled,
`FileSystemSecurity.validate_path` returns `True` unconditionally —
for any path, root, working directory, restricted patterns, and
extension list. -/
theorem claim5_validate_paths_disabled (sec : SecurityConfig) (cwd? : Option String)
    (path root_dir : String) (h : sec.validate_paths = false) :
    FileSystemSecurity.validate_path sec cwd? path root_dir = true := by
  unfold FileSystemSecurity.validate_path
  rw [h]
  rfl

/-- Witness for C5: `/etc/passwd` against root `/data` is accepted once
`validate_paths` is off. -/
theorem claim5_witness :
    secDisabled.validate_paths = false
    ∧ FileSystemSecurity.validate_path secDisabled (some "/") "/etc/passwd" "/data" = true :=
  ⟨rfl, claim5_validate_paths_disabled secDisabled (some "/") "/etc/passwd" "/data" rfl⟩

/-- Counterexample to claim C6: `LimitedChatMessageHistory.__init__`
performs no validation, so capacity 0 is accepted silently — there is no
construction-time configuration error — and the resulting history
retains every appended message (both appends survive). -/
theorem claim6_counterexample :
    (((LimitedChatMessageHistory.new 0 : LimitedChatMessageHistory Nat).add_message 1).add_message 2).messages
      = [1, 2] := by
  decide

/-- Claim C6 (corrected): a capacity-0 history is constructed without
error and never evicts: the truncation slice `lst[-0:]` is the whole
list, so after any sequence of appends every message is retained — an
unbounded buffer rather than a "discard everything" mode or a
construction-time failure. -/
theorem claim6_capacity_zero_retains (α : Type) (msgs : List α) :
    (msgs.foldl LimitedChatMessageHistory.add_message
      (LimitedChatMessageHistory.new 0)).messages = msgs := by
  have h := fold_add_zero msgs (LimitedChatMessageHistory.new 0 : LimitedChatMessageHistory α) rfl
  simpa [LimitedChatMessageHistory.messages, LimitedChatMessageHistory.new] using h

/-- Counterexample to claim C7: the error log of `FileSystemMetrics` has
no capacity at all — no bound `M` fixed at construction (or otherwise)
dominates the length of the stored error sequence. -/
theorem claim7_counterexample :
    ¬ ∃ M : Nat, ∀ n : Nat, (addErrorsN FileSystemMetrics.new n).errors.length ≤ M := by
  rintro ⟨M, hM⟩
  have h := hM (M + 1)
  rw [errors_addErrorsN] at h
  have hz : FileSystemMetrics.new.errors.length = 0 := rfl
  omega

/-- Claim C7 (corrected): `add_error` appends unboundedly: each call
adds exactly one entry at the end (newest last), with no eviction, so
after `n` recorded errors the stored sequence has grown by exactly
`n`. -/
theorem claim7_errors_unbounded (m : FileSystemMetrics) (t : Nat) (e : String) :
    ((m.add_error t e).errors = m.errors ++ [{ timestamp := t, error := e }])
    ∧ (∀ n : Nat, (addErrorsN m n).errors.length = m.errors.length + n) :=
  ⟨rfl, fun n => errors_addErrorsN m n⟩

/-- Counterexample to claim C8: neither validation function denies the
empty path.  `os.path.abspath("")` resolves to the working directory,
so with the working directory equal to the root (here `/data`), the
empty path passes the containment check, matches no pattern, and — with
no extension list — is declared valid by both functions. -/
theorem claim8_counterexample :
    validate_path (some "/data") "" "/data" = true
    ∧ FileSystemSecurity.validate_path secMonitored (some "/data") "" "/data" = true := by
  decide

/-- Claim C8 (corrected): the empty path is rejected one layer up, by
`safe_wrapper`'s `if not file_path` guard, which raises before any
validation runs: the wrapper returns the `"Error: No file path
provided"` string and leaves the security state (hence the ledger)
untouched, for every configuration, tool kind, and underlying
outcome. -/
theorem claim8_wrapper_rejects_empty (cfg : FilesystemConfig) (cwd? : Option String)
    (fsE : String → Bool) (fsS : String → Nat) (root_dir : String) (kind : ToolKind)
    (sm : FileSystemSecurity) (payload : String) (u : Except String String) :
    safe_wrapper cfg cwd? fsE fsS root_dir kind sm (some "") payload u
      = ("Error: No file path provided", sm) := rfl

/-- Claim C9 (confirmed): `get_metrics` only reads the metrics state:
calling it twice with no intervening `record_operation`/`add_error`
returns identical snapshots, and it leaves the state unchanged. -/
theorem claim9_metrics_idempotent (m : FileSystemMetrics) :
    ((FileSystemMetrics.get_metrics m).1
        = (FileSystemMetrics.get_metrics (FileSystemMetrics.get_metrics m).2).1)
    ∧ (FileSystemMetrics.get_metrics m).2 = m :=
  ⟨rfl, rfl⟩

/-- Claim C10 (confirmed): both validation functions are total Boolean
functions whose `except` handlers fail closed: whenever the validation
body raises (modelled by the `Except.error` outcome, e.g. `os.getcwd()`
failing while absolutizing a relative path), the function returns
`False` — never `True`.  For the manager's method the body only runs
when `validate_paths` is enabled. -/
theorem claim10_fail_closed (cwd? : Option String) (sec : SecurityConfig)
    (path root_dir : String) (e : String) :
    (validate_path_std_body cwd? path root_dir = Except.error e →
      validate_path cwd? path root_dir = false)
    ∧ (sec.validate_paths = true →
        validate_path_body cwd? sec path root_dir = Except.error e →
        FileSystemSecurity.validate_path sec cwd? path root_dir = false) := by
  constructor
  · intro h
    unfold validate_path
    rw [h]
  · intro hv h
    unfold FileSystemSecurity.validate_path
    rw [hv, h]
    rfl

/-- Witness for C10: a relative path with `os.getcwd()` unavailable
makes the body raise, and both functions deny. -/
theorem claim10_witness :
    validate_path none "notes.txt" "/data" = false
    ∧ FileSystemSecurity.validate_path secMonitored none "notes.txt" "/data" = false :=
  ⟨(claim10_fail_closed none secMonitored "notes.txt" "/data" "getcwd failed").1 (by rfl),
   (claim10_fail_closed none secMonitored "notes.txt" "/data" "getcwd failed").2 (by rfl) (by rfl)⟩

/-- Counterexample to claim C2: a denied execution does not touch the
ledger.  With monitoring enabled, one `safe_wrapper` call on a path
outside the root (which `raise`s `SecurityError` before the
`log_operation` line is reached) leaves the sum of the per-kind
operation counts at 0, although one execution took place — the claim
demands 1. -/
theorem claim2_counterexample :
    ledgerOpsSum (runCalls cfgNoLimit (some "/data") (fun _ => false) (fun _ => 0) "/data"
        smMonitored
        [{ kind := ToolKind.read, file_path := some "/etc/passwd", payload := ""
           underlying := Except.ok "contents" }]) = 0
    ∧ ([{ kind := ToolKind.read, file_path := some "/etc/passwd", payload := ""
          underlying := Except.ok "contents" }] : List CallSpec).length = 1 :=
  ⟨by decide, rfl⟩

/-- Claim C2 (corrected): with monitoring enabled, only the executions
whose prechecks all pass (non-empty path, path validation, and — for
reads — the size check) reach `log_operation` and increment the ledger,
each exactly once and before the wrapped tool runs (so calls whose
underlying operation fails still count); denied or precheck-errored
executions leave the ledger untouched.  Hence after any mixed sequence
the counts sum equals the previous sum plus the number of
precheck-passing calls — not the number of calls. -/
theorem claim2_ledger_precheck_accounting (cfg : FilesystemConfig) (cwd? : Option String)
    (fsE : String → Bool) (fsS : String → Nat) (root_dir : String)
    (sm : FileSystemSecurity) (calls : List CallSpec)
    (h : sm.metrics.isSome = true) :
    ledgerOpsSum (runCalls cfg cwd? fsE fsS root_dir sm calls)
      = ledgerOpsSum sm
        + calls.countP (fun c =>
            precheckPasses cfg cwd? fsE fsS root_dir c.kind sm.security_config c.file_path) := by
  induction calls generalizing sm with
  | nil => simp [runCalls]
  | cons c rest ih =>
    simp only [runCalls]
    have hsnd := safe_wrapper_snd cfg cwd? fsE fsS root_dir c.kind sm c.file_path
      c.payload c.underlying
    cases hp : precheckPasses cfg cwd? fsE fsS root_dir c.kind sm.security_config c.file_path with
    | true =>
      have hsm' : (safe_wrapper cfg cwd? fsE fsS root_dir c.kind sm c.file_path
          c.payload c.underlying).2 = sm.log_operation (opName c.kind) := by
        rw [hsnd, if_pos hp]
      rw [hsm']
      rw [ih (sm.log_operation (opName c.kind)) (by rw [log_operation_isSome]; exact h)]
      simp only [log_operation_sec]
      rw [log_operation_sum sm _ h, List.countP_cons]
      simp [hp]
      omega
    | false =>
      have hsm' : (safe_wrapper cfg cwd? fsE fsS root_dir c.kind sm c.file_path
          c.payload c.underlying).2 = sm := by
        rw [hsnd, if_neg (by simp [hp])]
      rw [hsm', ih sm h, List.countP_cons]
      simp [hp]

/-- Witness for C2: one precheck-passing write call, ledger sum grows by
the count of passing calls (here 1). -/
theorem claim2_witness :
    smMonitored.metrics.isSome = true
    ∧ ledgerOpsSum (runCalls cfgNoLimit (some "/data") (fun _ => false) (fun _ => 0) "/data"
        smMonitored
        [{ kind := ToolKind.write, file_path := some "/data/f.txt", payload := "hello"
           underlying := Except.ok "ok" }])
      = ledgerOpsSum smMonitored
        + ([{ kind := ToolKind.write, file_path := some "/data/f.txt", payload := "hello"
              underlying := Except.ok "ok" }] : List CallSpec).countP (fun c =>
            precheckPasses cfgNoLimit (some "/data") (fun _ => false) (fun _ => 0) "/data"
              c.kind smMonitored.security_config c.file_path) :=
  ⟨rfl, claim2_ledger_precheck_accounting cfgNoLimit (some "/data") (fun _ => false)
    (fun _ => 0) "/data" smMonitored
    [{ kind := ToolKind.write, file_path := some "/data/f.txt", payload := "hello"
       underlying := Except.ok "ok" }] rfl⟩

/-- Counterexample to claim C3: there is no payload-size check for
writes.  With `max_file_size = 1024` and a 2048-character payload, the
write goes straight through to the wrapped tool (the wrapper's result is
the tool's own success string, not a resource-limit error), because the
size check in `safe_wrapper` applies only to `ReadFileTool` and inspects
the on-disk file, never the payload. -/
theorem claim3_counterexample :
    (safe_wrapper cfgLimit1024 (some "/data") (fun _ => false) (fun _ => 0) "/data"
        ToolKind.write smMonitored (some "/data/f.txt") bigPayload
        (Except.ok "File written successfully")).1 = "File written successfully"
    ∧ bigPayload.length = 2048
    ∧ cfgLimit1024.max_file_size = some 1024 :=
  ⟨by decide, by
    show (List.replicate 2048 'a').length = 2048
    rw [List.length_replicate], rfl⟩

/-- Claim C3 (corrected): the only size limit enforced is for reads,
against the on-disk size: when `max_file_size` is configured and the
target of a `ReadFileTool` call exists with size above the limit, the
wrapper raises `ResourceError` before logging and before the wrapped
tool runs — it returns the error string for every possible underlying
outcome `u`, and the security state (hence the ledger) is returned
unchanged, so the claimed "one errored write record" does not happen
either. -/
theorem claim3_read_size_limit (cfg : FilesystemConfig) (cwd? : Option String)
    (fsE : String → Bool) (fsS : String → Nat) (root_dir : String)
    (sm : FileSystemSecurity) (fp payload : String) (u : Except String String) (lim : Nat)
    (hfp : (fp == "") = false)
    (hval : FileSystemSecurity.validate_path sm.security_config cwd? fp root_dir = true)
    (hex : fsE (pyJoin root_dir fp) = true)
    (hlim : cfg.max_file_size = some lim)
    (hsz : lim < fsS (pyJoin root_dir fp)) :
    safe_wrapper cfg cwd? fsE fsS root_dir ToolKind.read sm (some fp) payload u
      = ("Error: " ++ ("File exceeds size limit: " ++ fp), sm) := by
  unfold safe_wrapper safe_wrapper_precheck
  simp [hfp, hval, hex, hlim, hsz]

/-- Witness for C3: an existing 2048-byte file read under a 1024-byte
limit yields the resource error and an untouched ledger. -/
theorem claim3_witness :
    (("/data/big.txt" : String) == "") = false
    ∧ FileSystemSecurity.validate_path smMonitored.security_config (some "/data")
        "/data/big.txt" "/data" = true
    ∧ (fun _ : String => true) (pyJoin "/data" "/data/big.txt") = true
    ∧ cfgLimit1024.max_file_size = some 1024
    ∧ 1024 < (fun _ : String => (2048 : Nat)) (pyJoin "/data" "/data/big.txt")
    ∧ safe_wrapper cfgLimit1024 (some "/data") (fun _ => true) (fun _ => (2048 : Nat)) "/data"
        ToolKind.read smMonitored (some "/data/big.txt") "" (Except.ok "contents")
        = ("Error: " ++ ("File exceeds size limit: " ++ "/data/big.txt"), smMonitored) :=
  ⟨rfl, by decide, rfl, rfl, by decide,
   claim3_read_size_limit cfgLimit1024 (some "/data") (fun _ => true) (fun _ => (2048 : Nat))
     "/data" smMonitored "/data/big.txt" "" (Except.ok "contents") 1024
     rfl (by decide) rfl rfl (by decide)⟩
